import Mathlib

/-!
Verification of the `wrknv` configuration-check and gitignore-build commands.

The development shallowly embeds `src/wrknv/cli/commands/config_check.py`:
TOML values parsed by `tomllib` are modelled by `PyVal` (`None`, booleans,
integers, strings, lists and string-keyed tables, which is the fragment the
checker inspects), Python `==` by `pyEq`, `repr`/`str` formatting by
`pyRepr`/`pyStrOf`, and each checker function by a Lean function of the same
name.  Code that can raise (attribute errors on non-table values, unhashable
set elements) is modelled in `Option`, with `none` standing for an escaped
exception.  The gitignore assembler, whose implementation file is not part of
the excerpted source, is modelled from the specification.
-/

/-- A Python value in the fragment produced by `tomllib` and inspected by the
checker: `None`, booleans, integers, strings, lists, and string-keyed dicts. -/
inductive PyVal where
  | vNone : PyVal
  | vBool : Bool → PyVal
  | vInt : Int → PyVal
  | vStr : String → PyVal
  | vList : List PyVal → PyVal
  | vDict : List (String × PyVal) → PyVal

/-- First-match lookup in an association list: Python `dict` access for the
duplicate-free dicts `tomllib` produces. -/
def lookupStr : List (String × PyVal) → String → Option PyVal
  | [], _ => none
  | (k, v) :: rest, key => if k = key then some v else lookupStr rest key

/-- Python `d.get(key, default)` on a genuine dict. -/
def dictGetD (d : List (String × PyVal)) (k : String) (dflt : PyVal) : PyVal :=
  match lookupStr d k with
  | some v => v
  | none => dflt

/-- Python `v.get(key)` (default `None`); `none` models the `AttributeError`
raised when `v` is not a dict. -/
def pyGet (v : PyVal) (k : String) : Option PyVal :=
  match v with
  | .vDict d => some (dictGetD d k .vNone)
  | _ => none

/-- Python `v.get(key, dflt)`; `none` models the `AttributeError` raised when
`v` is not a dict. -/
def pyGetD (v : PyVal) (k : String) (dflt : PyVal) : Option PyVal :=
  match v with
  | .vDict d => some (dictGetD d k dflt)
  | _ => none

/-- Key-only inclusion between dicts (no value comparison). -/
def keysSub (a b : List (String × PyVal)) : Bool :=
  a.all fun p => b.any fun q => q.1 == p.1

mutual

/-- Python `==` on the modelled fragment (`True == 1`, `False == 0`, lists
elementwise, dicts by key/value content irrespective of insertion order; for
the duplicate-free dicts `tomllib` produces, one-sided value inclusion plus
reverse key inclusion is dict equality). -/
def pyEq : PyVal → PyVal → Bool
  | .vNone, .vNone => true
  | .vBool a, .vBool b => a == b
  | .vBool a, .vInt b => (if a then (1 : Int) else 0) == b
  | .vInt a, .vBool b => a == (if b then (1 : Int) else 0)
  | .vInt a, .vInt b => a == b
  | .vStr a, .vStr b => a == b
  | .vList a, .vList b => pyEqList a b
  | .vDict a, .vDict b => pyDictSub a b && keysSub b a
  | _, _ => false

/-- Elementwise Python `==` on lists. -/
def pyEqList : List PyVal → List PyVal → Bool
  | [], bs => bs.isEmpty
  | a :: as, b :: bs => pyEq a b && pyEqList as bs
  | _ :: _, [] => false

/-- Every pair of the first dict has a Python-equal value at its key in the
second dict. -/
def pyDictSub : List (String × PyVal) → List (String × PyVal) → Bool
  | [], _ => true
  | (k, v) :: rest, other =>
    (match lookupStr other k with
     | some w => pyEq v w
     | none => false) && pyDictSub rest other

end

/-- Whether a value is hashable in Python (may be a member of a `set`). -/
def pyHashable : PyVal → Bool
  | .vList _ => false
  | .vDict _ => false
  | _ => true

/-- Python `set(v)`: lists of hashable elements, strings (split into
one-character strings) and dicts (their keys) are iterable; `none` models the
`TypeError` raised otherwise (non-iterable value or unhashable element).  The
resulting list is read as a set by `pyMem`/`setEq`. -/
def pySet : PyVal → Option (List PyVal)
  | .vList xs => if xs.all pyHashable then some xs else none
  | .vStr s => some (s.data.map fun c => .vStr (String.mk [c]))
  | .vDict d => some (d.map fun p => .vStr p.1)
  | _ => none

/-- Set membership with Python equality. -/
def pyMem (x : PyVal) : List PyVal → Bool
  | [] => false
  | y :: ys => pyEq x y || pyMem x ys

/-- One-sided set inclusion with Python equality. -/
def pySubset (a b : List PyVal) : Bool := a.all fun x => pyMem x b

/-- Python `set(a) == set(b)` for the element lists produced by `pySet`. -/
def setEq (a b : List PyVal) : Bool := pySubset a b && pySubset b a

/-- Escape of one character inside a Python string `repr`, for the chosen
quote character. -/
def escChar (q : Char) (c : Char) : String :=
  if c = '\\' then "\\\\"
  else if c = q then String.mk ['\\', q]
  else if c = '\n' then "\\n"
  else if c = '\r' then "\\r"
  else if c = '\t' then "\\t"
  else String.mk [c]

/-- The quote character Python `repr` picks for a string: single quote, unless
the string contains a single quote and no double quote. -/
def pyQuoteChar (s : String) : Char :=
  if s.data.contains (Char.ofNat 39) && !(s.data.contains (Char.ofNat 34)) then Char.ofNat 34
  else Char.ofNat 39

/-- Python `repr` of a string (on the escape-free fragment used here). -/
def pyReprStr (s : String) : String :=
  let q := pyQuoteChar s
  String.mk [q] ++ String.join (s.data.map (escChar q)) ++ String.mk [q]

mutual

/-- Python `repr` of a value. -/
def pyRepr : PyVal → String
  | .vNone => "None"
  | .vBool true => "True"
  | .vBool false => "False"
  | .vInt n => toString n
  | .vStr s => pyReprStr s
  | .vList xs => "[" ++ pyReprList xs ++ "]"
  | .vDict d => "\x7b" ++ pyReprDict d ++ "\x7d"

def pyReprList : List PyVal → String
  | [] => ""
  | [x] => pyRepr x
  | x :: xs => pyRepr x ++ ", " ++ pyReprList xs

def pyReprDict : List (String × PyVal) → String
  | [] => ""
  | [(k, v)] => pyReprStr k ++ ": " ++ pyRepr v
  | (k, v) :: rest => pyReprStr k ++ ": " ++ pyRepr v ++ ", " ++ pyReprDict rest

end

/-- Python `str` of a value, as used by f-string interpolation without `!r`:
the raw text for strings, `repr`-like rendering otherwise. -/
def pyStrOf : PyVal → String
  | .vStr s => s
  | v => pyRepr v

/-- `CANONICAL_RUFF` from `config_check.py`. -/
def CANONICAL_RUFF : List (String × PyVal) :=
  [("line-length", .vInt 111), ("indent-width", .vInt 4), ("target-version", .vStr "py311")]

/-- `CANONICAL_RUFF_LINT_SELECT` from `config_check.py`. -/
def CANONICAL_RUFF_LINT_SELECT : List String :=
  ["E", "F", "W", "I", "UP", "ANN", "B", "C90", "SIM", "PTH", "RUF"]

/-- `CANONICAL_RUFF_LINT_IGNORE` from `config_check.py`. -/
def CANONICAL_RUFF_LINT_IGNORE : List String := ["ANN401", "B008", "E501"]

/-- `CANONICAL_RUFF_FORMAT` from `config_check.py`. -/
def CANONICAL_RUFF_FORMAT : List (String × PyVal) :=
  [("quote-style", .vStr "double"), ("indent-style", .vStr "space"),
   ("skip-magic-trailing-comma", .vBool false), ("line-ending", .vStr "auto")]

/-- `CANONICAL_MYPY` from `config_check.py`. -/
def CANONICAL_MYPY : List (String × PyVal) :=
  [("python_version", .vStr "3.11"), ("strict", .vBool true), ("pretty", .vBool true),
   ("show_error_codes", .vBool true), ("show_column_numbers", .vBool true),
   ("warn_unused_ignores", .vBool true), ("warn_unused_configs", .vBool true)]

/-- `REQUIRED_PYTEST_SETTINGS` from `config_check.py`. -/
def REQUIRED_PYTEST_SETTINGS : List (String × PyVal) :=
  [("log_cli", .vBool true), ("testpaths", .vList [.vStr "tests"]),
   ("python_files", .vList [.vStr "test_*.py", .vStr "*_test.py"])]

/-- The canonical select list as Python values. -/
def canonSelectVals : List PyVal := CANONICAL_RUFF_LINT_SELECT.map PyVal.vStr

/-- The canonical ignore list as Python values. -/
def canonIgnoreVals : List PyVal := CANONICAL_RUFF_LINT_IGNORE.map PyVal.vStr

/-- The per-key comparison loop shared by the table checks: for each canonical
key, fetch the actual value with `.get` (raising if the table is not a dict)
and emit the deviation message on mismatch. -/
def checkTable (hdr : String) (tbl : PyVal) : List (String × PyVal) → Option (List String)
  | [] => some []
  | (k, exp) :: rest =>
    match pyGet tbl k with
    | none => none
    | some actual =>
      match checkTable hdr tbl rest with
      | none => none
      | some tail =>
        some (if pyEq actual exp then tail
              else (hdr ++ " " ++ k ++ " should be " ++ pyRepr exp ++ ", got "
                      ++ pyRepr actual) :: tail)

/-- Total form of `checkTable` on a genuine dict. -/
def tableErrs (hdr : String) (d : List (String × PyVal)) : List (String × PyVal) → List String
  | [] => []
  | (k, exp) :: rest =>
    let actual := dictGetD d k .vNone
    if pyEq actual exp then tableErrs hdr d rest
    else (hdr ++ " " ++ k ++ " should be " ++ pyRepr exp ++ ", got " ++ pyRepr actual)
        :: tableErrs hdr d rest

/-- The `[tool.ruff.lint] select` deviation message. -/
def selectMsg (v : PyVal) : String :=
  "[tool.ruff.lint] select should be " ++ pyStrOf (.vList canonSelectVals)
    ++ ", got " ++ pyStrOf v

/-- The `[tool.ruff.lint] ignore` deviation message. -/
def ignoreMsg (v : PyVal) : String :=
  "[tool.ruff.lint] ignore should be " ++ pyStrOf (.vList canonIgnoreVals)
    ++ ", got " ++ pyStrOf v

/-- `_check_ruff_config` from `config_check.py`. -/
def check_ruff_config (config : List (String × PyVal)) : Option (List String) := do
  let ruff ← pyGetD (dictGetD config "tool" (.vDict [])) "ruff" (.vDict [])
  let e1 ← checkTable "[tool.ruff]" ruff CANONICAL_RUFF
  let lint ← pyGetD ruff "lint" (.vDict [])
  let selectVal ← pyGetD lint "select" (.vList [])
  let selSet ← pySet selectVal
  let selErr := if setEq selSet canonSelectVals then [] else [selectMsg selectVal]
  let ignoreVal ← pyGetD lint "ignore" (.vList [])
  let ignSet ← pySet ignoreVal
  let ignErr := if setEq ignSet canonIgnoreVals then [] else [ignoreMsg ignoreVal]
  let fmtV ← pyGetD ruff "format" (.vDict [])
  let e2 ← checkTable "[tool.ruff.format]" fmtV CANONICAL_RUFF_FORMAT
  pure (e1 ++ selErr ++ ignErr ++ e2)

/-- `_check_mypy_config` from `config_check.py`. -/
def check_mypy_config (config : List (String × PyVal)) : Option (List String) := do
  let mypy ← pyGetD (dictGetD config "tool" (.vDict [])) "mypy" (.vDict [])
  checkTable "[tool.mypy]" mypy CANONICAL_MYPY

/-- `_check_pytest_config` from `config_check.py`. -/
def check_pytest_config (config : List (String × PyVal)) : Option (List String) := do
  let pytest ← pyGetD (dictGetD config "tool" (.vDict [])) "pytest" (.vDict [])
  let ini ← pyGetD pytest "ini_options" (.vDict [])
  checkTable "[tool.pytest.ini_options]" ini REQUIRED_PYTEST_SETTINGS

/-- Only strings have the `.startswith` method; `none` models the
`AttributeError` raised on any other value. -/
def pyAsStr : PyVal → Option String
  | .vStr s => some s
  | _ => none

/-- Python `s.startswith(p)`: character-level prefix test. -/
def strStartsWith (s p : String) : Bool := p.data.isPrefixOf s.data

/-- The `[project] license` deviation message. -/
def licenseMsg (v : PyVal) : String :=
  "[project] license should be \x27Apache-2.0\x27, got " ++ pyRepr v

/-- The `[project] requires-python` deviation message. -/
def requiresPythonMsg (v : PyVal) : String :=
  "[project] requires-python should be \x27>=3.11\x27, got " ++ pyRepr v

/-- `_check_project_metadata` from `config_check.py` (produces warnings). -/
def check_project_metadata (config : List (String × PyVal)) : Option (List String) := do
  let project := dictGetD config "project" (.vDict [])
  let licenseVal ← pyGet project "license"
  let w1 := if pyEq licenseVal (.vStr "Apache-2.0") then [] else [licenseMsg licenseVal]
  let rp ← pyGetD project "requires-python" (.vStr "")
  let rpStr ← pyAsStr rp
  let w2 := if strStartsWith rpStr ">=3.11" then [] else [requiresPythonMsg rp]
  pure (w1 ++ w2)

/-- The outcome of opening and `tomllib.load`-ing a file: either a caught
`OSError`/`TOMLDecodeError` with its message, or the parsed document. -/
inductive TomlFile where
  | parseError (msg : String)
  | parsed (config : List (String × PyVal))

/-- The parse-failure error entry built by `_validate_pyproject`. -/
def failedParseMsg (filepath msg : String) : String :=
  "Failed to parse " ++ filepath ++ ": " ++ msg

/-- `_validate_pyproject` from `config_check.py`: parse failures become a
single error entry; otherwise the four checks run in order.  `none` models an
exception escaping the function (only `OSError`/`TOMLDecodeError` are caught). -/
def validate_pyproject (filepath : String) (file : TomlFile) :
    Option (List String × List String) :=
  match file with
  | .parseError e => some ([failedParseMsg filepath e], [])
  | .parsed config => do
    let e1 ← check_ruff_config config
    let e2 ← check_mypy_config config
    let e3 ← check_pytest_config config
    let w ← check_project_metadata config
    pure (e1 ++ e2 ++ e3, w)

/-- Split a character list at every occurrence of a separator character. -/
def splitChar (sep : Char) : List Char → List (List Char)
  | [] => [[]]
  | c :: rest =>
    match splitChar sep rest with
    | [] => [[c]]
    | l :: ls => if c = sep then [] :: l :: ls else (c :: l) :: ls

/-- `pathlib.Path(p).name`: the final path component, with empty and `.`
segments dropped. -/
def pathName (p : String) : String :=
  String.mk (((splitChar '/' p.data).filter fun s => !s.isEmpty && !(s == ['.'])).getLastD [])

/-- One styled output line of the command (`echo_error` / `echo_info` /
`echo_warning` / `echo_success`). -/
inductive Msg where
  | error : String → Msg
  | info : String → Msg
  | warning : String → Msg
  | success : String → Msg
deriving DecidableEq

/-- The file system as the command observes it: the current directory, an
existence test, and the outcome of opening and parsing an existing file. -/
structure FS where
  cwd : String
  fexists : String → Bool
  load : String → TomlFile

/-- The default file `Path.cwd() / "pyproject.toml"`. -/
def defaultPath (fs : FS) : String := fs.cwd ++ "/pyproject.toml"

/-- The observable outcome of a command run: its printed lines and exit code. -/
structure CmdResult where
  output : List Msg
  exitCode : Nat
deriving DecidableEq

/-- The loop body of `config_check_command` for one file path: skip paths not
named `pyproject.toml`; report missing files; otherwise validate and print per
the error/warning branches.  Returns the printed lines and the file's
contribution to `all_valid`; `none` models an exception escaping validation. -/
def checkOneFile (fs : FS) (strict : Bool) (fp : String) : Option (List Msg × Bool) :=
  if pathName fp ≠ "pyproject.toml" then some ([], true)
  else if fs.fexists fp = false then
    some ([.error ("File not found: " ++ fp)], false)
  else
    match validate_pyproject fp (fs.load fp) with
    | none => none
    | some (errors, warnings) =>
      let intro : List Msg := [.info ("\nChecking " ++ fp ++ "...")]
      if errors ≠ [] then
        some (intro ++ Msg.error ("\n" ++ toString errors.length ++ " error(s) found:")
                :: errors.map (fun e => Msg.error ("  - " ++ e)), false)
      else
        let wmsgs : List Msg :=
          if warnings ≠ [] then
            Msg.warning ("\n" ++ toString warnings.length ++ " warning(s):")
              :: warnings.map (fun w => Msg.warning ("  - " ++ w))
          else []
        if warnings ≠ [] ∧ strict = true then some (intro ++ wmsgs, false)
        else
          some (intro ++ wmsgs
                  ++ (if errors = [] ∧ (warnings = [] ∨ strict = false) then
                        [Msg.success "Configuration valid"]
                      else []), true)

/-- The `for filepath in filepaths` loop: concatenated output and the final
`all_valid` flag. -/
def runFiles (fs : FS) (strict : Bool) : List String → Option (List Msg × Bool)
  | [] => some ([], true)
  | fp :: rest => do
    let (ms, ok) ← checkOneFile fs strict fp
    let (ms2, ok2) ← runFiles fs strict rest
    pure (ms ++ ms2, ok && ok2)

/-- `config_check_command` from `config_check.py`: explicit file arguments, or
the default `pyproject.toml` of the current directory; exit 1 when that
default is absent or when any file invalidated the run. -/
def config_check_command (fs : FS) (files : List String) (strict : Bool) :
    Option CmdResult :=
  if files ≠ [] then
    (runFiles fs strict files).map fun r => ⟨r.1, if r.2 then 0 else 1⟩
  else if fs.fexists (defaultPath fs) then
    (runFiles fs strict [defaultPath fs]).map fun r => ⟨r.1, if r.2 then 0 else 1⟩
  else
    some ⟨[.error "No pyproject.toml found in current directory"], 1⟩

/-- Modelled from the spec: `GitignoreAssembler.build` (the gitignore manager
module is not part of the excerpted source; §4.3 and §6 of the specification
define it).  Template names are resolved in order; each resolved template
contributes a section `# === <name> ===` header line followed by its raw
content; sections are joined by a blank line; unresolved names are collected
in `missing` and contribute nothing. -/
def GitignoreAssembler.build (names : List String) (resolve : String → Option String) :
    String × List String :=
  let sections := names.filterMap fun n =>
    (resolve n).map fun c => "# === " ++ n ++ " ===\n" ++ c
  let missing := names.filter fun n => resolve n = none
  (String.intercalate "\n\n" sections, missing)

/-- The observable outcome of a gitignore build run: printed lines, the file
written (path and content) if any, and the exit code. -/
structure GitignoreBuildResult where
  output : List Msg
  written : Option (String × String)
  exitCode : Nat
deriving DecidableEq

/-- Modelled from the spec: the `gitignore build` command (§4.4; its module is
not part of the excerpted source).  CLI-supplied template names override the
configuration-declared list; an empty effective list prints an explanatory
message and is a successful no-op writing nothing; otherwise the assembled
document is written to the explicit output path or `.gitignore`, with each
missing template surfaced as a non-fatal warning. -/
def gitignore_build_command (cliTemplates : Option (List String))
    (configTemplates : List String) (outputPath : Option String)
    (resolve : String → Option String) : GitignoreBuildResult :=
  let templates := match cliTemplates with
    | some ts => ts
    | none => configTemplates
  if templates = [] then
    { output := [.info "No gitignore templates specified in config or via --templates."],
      written := none, exitCode := 0 }
  else
    let built := GitignoreAssembler.build templates resolve
    { output := built.2.map fun n => Msg.warning ("Template not found: " ++ n),
      written := some ((outputPath.getD ".gitignore"), built.1), exitCode := 0 }

/-- Replace the value at a key of an association list (all occurrences; the
dicts modelled here are duplicate-free). -/
def dictSet (d : List (String × PyVal)) (k : String) (v : PyVal) :
    List (String × PyVal) :=
  d.map fun p => if p.1 = k then (k, v) else p

/-- The lines of a character list, splitting at newline characters. -/
def charLines (cs : List Char) : List (List Char) := splitChar '\n' cs

/-- Whether a line is a gitignore section header line. -/
def isHeaderLine (l : List Char) : Bool := "# === ".data.isPrefixOf l

/-- The section header lines of a document. -/
def headerLines (doc : String) : List (List Char) :=
  (charLines doc.data).filter isHeaderLine

/-- A fully conformant `[tool.ruff.lint]` table. -/
def canonicalLintDict : List (String × PyVal) :=
  [("select", .vList canonSelectVals), ("ignore", .vList canonIgnoreVals)]

/-- A fully conformant `[tool.ruff]` table. -/
def canonicalRuffDict : List (String × PyVal) :=
  [("line-length", .vInt 111), ("indent-width", .vInt 4), ("target-version", .vStr "py311"),
   ("lint", .vDict canonicalLintDict), ("format", .vDict CANONICAL_RUFF_FORMAT)]

/-- A fully conformant `[tool.pytest]` table. -/
def canonicalPytestDict : List (String × PyVal) :=
  [("ini_options", .vDict REQUIRED_PYTEST_SETTINGS)]

/-- A fully conformant `[tool]` table. -/
def canonicalToolDict : List (String × PyVal) :=
  [("ruff", .vDict canonicalRuffDict), ("mypy", .vDict CANONICAL_MYPY),
   ("pytest", .vDict canonicalPytestDict)]

/-- A fully conformant `[project]` table. -/
def canonicalProjectDict : List (String × PyVal) :=
  [("license", .vStr "Apache-2.0"), ("requires-python", .vStr ">=3.11")]

/-- A fully conformant parsed `pyproject.toml` document. -/
def canonicalConfig : List (String × PyVal) :=
  [("tool", .vDict canonicalToolDict), ("project", .vDict canonicalProjectDict)]

/-- A document passing every error-level check but missing the `[project]`
table, so that validation yields warnings only. -/
def warnOnlyConfig : List (String × PyVal) :=
  [("tool", .vDict canonicalToolDict)]

/-- A file system with no files at all. -/
def fsEmpty : FS := ⟨"", fun _ => false, fun _ => .parseError ""⟩

/-- A file system on which every path exists and parses to `warnOnlyConfig`. -/
def fsWarn : FS := ⟨"", fun _ => true, fun _ => .parsed warnOnlyConfig⟩

/-- A file system whose `pyproject.toml` exists but cannot be parsed. -/
def fsParseErr : FS := ⟨"", fun _ => true, fun _ => .parseError "boom"⟩

/-- A file invalidates the run when it is eligible (named `pyproject.toml`)
and is missing, or validated with errors, or validated with warnings under
`strict`.  This is the claimed condition for a non-zero exit code. -/
def fileBad (fs : FS) (strict : Bool) (fp : String) : Prop :=
  pathName fp = "pyproject.toml" ∧
    (fs.fexists fp = false ∨
      ∃ e w, validate_pyproject fp (fs.load fp) = some (e, w) ∧
        (e ≠ [] ∨ (w ≠ [] ∧ strict = true)))

/-- Rebuild a document along the path `tool.ruff.lint`, replacing the values
of the `select` and `ignore` keys. -/
def substSelIgn (config tool ruff lint : List (String × PyVal)) (sel ign : List PyVal) :
    List (String × PyVal) :=
  dictSet config "tool" (.vDict (dictSet tool "ruff" (.vDict (dictSet ruff "lint"
    (.vDict (dictSet (dictSet lint "select" (.vList sel)) "ignore" (.vList ign)))))))

/-- A minimal document whose `tool.ruff.lint.select` is the given list. -/
def cfgSel (l : List PyVal) : List (String × PyVal) :=
  [("tool", .vDict [("ruff", .vDict [("lint", .vDict [("select", .vList l)])])])]

/-! ## General lemmas about the embedded checker -/

theorem checkTable_vDict (hdr : String) (d : List (String × PyVal)) :
    ∀ canon, checkTable hdr (.vDict d) canon = some (tableErrs hdr d canon) := by
  intro canon
  induction canon with
  | nil => rfl
  | cons p rest ih =>
    obtain ⟨k, exp⟩ := p
    simp only [checkTable, tableErrs, pyGet, ih]

theorem tableErrs_eq_nil (hdr : String) (d : List (String × PyVal)) :
    ∀ canon, (∀ p ∈ canon, pyEq (dictGetD d p.1 .vNone) p.2 = true) →
      tableErrs hdr d canon = [] := by
  intro canon
  induction canon with
  | nil => intro _; rfl
  | cons p rest ih =>
    intro h
    obtain ⟨k, exp⟩ := p
    have hk := h (k, exp) (List.mem_cons_self _ _)
    simp only [tableErrs, hk, if_true]
    exact ih fun q hq => h q (List.mem_cons_of_mem _ hq)

theorem runFiles_skip (fs : FS) (strict : Bool) :
    ∀ files, (∀ fp ∈ files, pathName fp ≠ "pyproject.toml") →
      runFiles fs strict files = some ([], true) := by
  intro files
  induction files with
  | nil => intro _; rfl
  | cons fp rest ih =>
    intro h
    have h1 : pathName fp ≠ "pyproject.toml" := h fp (List.mem_cons_self _ _)
    have h2 := ih fun q hq => h q (List.mem_cons_of_mem _ hq)
    simp [runFiles, checkOneFile, h1, h2]

/-! ## C3 -/

/-- C3: for every file whose open/parse fails, `_validate_pyproject` returns
the single-element error list holding the parse-failure description and an
empty warning list; returning a value at all (rather than `none`, the model
of an escaped exception) expresses that no exception escapes this boundary. -/
theorem c3_parse_failure_single_error (fp e : String) :
    validate_pyproject fp (.parseError e) = some ([failedParseMsg fp e], []) := rfl

/-! ## C5 -/

/-- C5 counterexample: an empty configuration document is not short-circuited.
It parses successfully (to the empty table), all standard checks run, and
validation returns 19 errors and 2 warnings — not a single fatal parse-error
entry. -/
theorem c5_counterexample_empty_doc :
    (validate_pyproject "pyproject.toml" (.parsed [])).map
        (fun r => (r.1.length, r.2.length)) = some (19, 2) ∧ (19 : Nat) ≠ 1 :=
  ⟨rfl, by decide⟩

/-- C5 amended: for every missing or malformed configuration document (one
whose open or parse raises), validation short-circuits with exactly one error
entry (the parse error) and no warnings; an empty document instead parses
successfully and undergoes the standard checks. -/
theorem c5_amended_parse_failure_short_circuits (fp e : String) :
    (validate_pyproject fp (.parseError e)).map (fun r => (r.1.length, r.2.length))
      = some (1, 0) := rfl

/-! ## C8 -/

/-- C8: whenever the effective template list (CLI override, else the
configuration-declared list) is empty, the gitignore build command prints the
explanatory message, writes no file, and exits 0. -/
theorem c8_empty_template_list_is_noop (cliTemplates : Option (List String))
    (configTemplates : List String) (outputPath : Option String)
    (resolve : String → Option String)
    (h : (match cliTemplates with | some ts => ts | none => configTemplates) = []) :
    gitignore_build_command cliTemplates configTemplates outputPath resolve =
      ⟨[.info "No gitignore templates specified in config or via --templates."],
        none, 0⟩ := by
  simp only [gitignore_build_command, h, if_pos]

theorem c8_witness :
    gitignore_build_command none [] none (fun _ => none) =
      ⟨[.info "No gitignore templates specified in config or via --templates."],
        none, 0⟩ :=
  c8_empty_template_list_is_noop none [] none (fun _ => none) rfl

/-! ## C9 -/

/-- C9: when explicit file arguments are given and none of them is named
`pyproject.toml`, every argument is skipped silently — no output is printed,
nothing is validated — and the command exits 0. -/
theorem c9_non_matching_files_skipped (fs : FS) (files : List String) (strict : Bool)
    (h1 : files ≠ []) (h2 : ∀ fp ∈ files, pathName fp ≠ "pyproject.toml") :
    config_check_command fs files strict = some ⟨[], 0⟩ := by
  unfold config_check_command
  rw [if_pos h1, runFiles_skip fs strict files h2]
  rfl

theorem c9_witness :
    config_check_command fsEmpty ["setup.py", "docs/conf.py"] false = some ⟨[], 0⟩ :=
  c9_non_matching_files_skipped fsEmpty ["setup.py", "docs/conf.py"] false
    (by decide) (by decide)

/-! ## C10 -/

/-- C10: the `requires-python` check is a literal string-prefix test against
`>=3.11`.  A document with no `requires-python` key is checked as the empty
string and warned about; any string value whose text starts with `>=3.11`
produces no warning (the returned warnings are exactly the license check's). -/
theorem c10_requires_python_prefix_test (config project : List (String × PyVal))
    (hp : dictGetD config "project" (.vDict []) = .vDict project) :
    (lookupStr project "requires-python" = none →
      check_project_metadata config = some
        ((if pyEq (dictGetD project "license" .vNone) (.vStr "Apache-2.0") then []
          else [licenseMsg (dictGetD project "license" .vNone)])
          ++ [requiresPythonMsg (.vStr "")]))
    ∧ (∀ s, lookupStr project "requires-python" = some (.vStr s) →
        strStartsWith s ">=3.11" = true →
        check_project_metadata config = some
          (if pyEq (dictGetD project "license" .vNone) (.vStr "Apache-2.0") then []
           else [licenseMsg (dictGetD project "license" .vNone)])) := by
  constructor
  · intro hnone
    have hrp : dictGetD project "requires-python" (.vStr "") = .vStr "" := by
      simp [dictGetD, hnone]
    have hsw : strStartsWith "" ">=3.11" = false := by decide
    simp [check_project_metadata, hp, pyGet, pyGetD, hrp, pyAsStr, hsw]
  · intro s hs hsw
    have hrp : dictGetD project "requires-python" (.vStr "") = .vStr s := by
      simp [dictGetD, hs]
    simp [check_project_metadata, hp, pyGet, pyGetD, hrp, pyAsStr, hsw]

theorem c10_witness :
    check_project_metadata [("project", .vDict [])] =
      some [licenseMsg .vNone, requiresPythonMsg (.vStr "")] ∧
    check_project_metadata [("project", .vDict [("license", .vStr "Apache-2.0"),
        ("requires-python", .vStr ">=3.110")])] = some [] := by
  constructor
  · exact ((c10_requires_python_prefix_test [("project", .vDict [])] [] rfl).1
      rfl).trans (by decide)
  · exact ((c10_requires_python_prefix_test
        [("project", .vDict [("license", .vStr "Apache-2.0"),
          ("requires-python", .vStr ">=3.110")])]
        [("license", .vStr "Apache-2.0"), ("requires-python", .vStr ">=3.110")] rfl).2
        ">=3.110" rfl (by decide)).trans (by decide)

/-! ## Shape lemmas for the ruff/mypy/pytest/metadata checks -/

theorem check_ruff_shape (config tool ruff lint fmtT : List (String × PyVal))
    (selV ignV : PyVal) (selS ignS : List PyVal)
    (htool : dictGetD config "tool" (.vDict []) = .vDict tool)
    (hruff : dictGetD tool "ruff" (.vDict []) = .vDict ruff)
    (hlint : dictGetD ruff "lint" (.vDict []) = .vDict lint)
    (hselv : dictGetD lint "select" (.vList []) = selV)
    (hsels : pySet selV = some selS)
    (hignv : dictGetD lint "ignore" (.vList []) = ignV)
    (higns : pySet ignV = some ignS)
    (hfmt : dictGetD ruff "format" (.vDict []) = .vDict fmtT) :
    check_ruff_config config = some
      (tableErrs "[tool.ruff]" ruff CANONICAL_RUFF
        ++ (if setEq selS canonSelectVals then [] else [selectMsg selV])
        ++ (if setEq ignS canonIgnoreVals then [] else [ignoreMsg ignV])
        ++ tableErrs "[tool.ruff.format]" fmtT CANONICAL_RUFF_FORMAT) := by
  simp only [check_ruff_config, htool, pyGetD, hruff, hlint, hselv, hsels, hignv, higns,
    hfmt, checkTable_vDict, Option.bind_some, Option.bind_eq_bind, bind, Option.some_bind,
    Option.pure_def]

theorem check_mypy_shape (config tool mypyT : List (String × PyVal))
    (htool : dictGetD config "tool" (.vDict []) = .vDict tool)
    (hmypy : dictGetD tool "mypy" (.vDict []) = .vDict mypyT) :
    check_mypy_config config = some (tableErrs "[tool.mypy]" mypyT CANONICAL_MYPY) := by
  simp only [check_mypy_config, htool, pyGetD, hmypy, checkTable_vDict,
    Option.bind_eq_bind, bind, Option.some_bind, Option.pure_def]

theorem check_pytest_shape (config tool pytestT ini : List (String × PyVal))
    (htool : dictGetD config "tool" (.vDict []) = .vDict tool)
    (hpytest : dictGetD tool "pytest" (.vDict []) = .vDict pytestT)
    (hini : dictGetD pytestT "ini_options" (.vDict []) = .vDict ini) :
    check_pytest_config config =
      some (tableErrs "[tool.pytest.ini_options]" ini REQUIRED_PYTEST_SETTINGS) := by
  simp only [check_pytest_config, htool, pyGetD, hpytest, hini, checkTable_vDict,
    Option.bind_eq_bind, bind, Option.some_bind, Option.pure_def]

theorem check_project_metadata_clean (config project : List (String × PyVal))
    (hproj : dictGetD config "project" (.vDict []) = .vDict project)
    (hlic : pyEq (dictGetD project "license" .vNone) (.vStr "Apache-2.0") = true)
    (hrp : ∃ s, dictGetD project "requires-python" (.vStr "") = .vStr s ∧
      strStartsWith s ">=3.11" = true) :
    check_project_metadata config = some [] := by
  obtain ⟨s, hs, hsw⟩ := hrp
  simp [check_project_metadata, hproj, pyGet, pyGetD, pyAsStr, hs, hsw, hlic]

/-! ## C2 -/

/-- C2: every configuration document all of whose checked keys match the
canonical standards (each `CANONICAL_RUFF`, `CANONICAL_RUFF_FORMAT`,
`CANONICAL_MYPY` and `REQUIRED_PYTEST_SETTINGS` key Python-equal to its
expected value, `select`/`ignore` set-equal to the canonical lists with
hashable elements, license `Apache-2.0`, `requires-python` a string starting
with `>=3.11`) validates with empty error and warning sequences. -/
theorem c2_conformant_document_validates_clean (fp : String)
    (config tool ruff lint fmtT mypyT pytestT ini project : List (String × PyVal))
    (sel ign : List PyVal)
    (htool : dictGetD config "tool" (.vDict []) = .vDict tool)
    (hruff : dictGetD tool "ruff" (.vDict []) = .vDict ruff)
    (hruffKeys : ∀ p ∈ CANONICAL_RUFF, pyEq (dictGetD ruff p.1 .vNone) p.2 = true)
    (hlint : dictGetD ruff "lint" (.vDict []) = .vDict lint)
    (hselv : dictGetD lint "select" (.vList []) = .vList sel)
    (hselh : sel.all pyHashable = true)
    (hseleq : setEq sel canonSelectVals = true)
    (hignv : dictGetD lint "ignore" (.vList []) = .vList ign)
    (hignh : ign.all pyHashable = true)
    (higneq : setEq ign canonIgnoreVals = true)
    (hfmt : dictGetD ruff "format" (.vDict []) = .vDict fmtT)
    (hfmtKeys : ∀ p ∈ CANONICAL_RUFF_FORMAT, pyEq (dictGetD fmtT p.1 .vNone) p.2 = true)
    (hmypy : dictGetD tool "mypy" (.vDict []) = .vDict mypyT)
    (hmypyKeys : ∀ p ∈ CANONICAL_MYPY, pyEq (dictGetD mypyT p.1 .vNone) p.2 = true)
    (hpytest : dictGetD tool "pytest" (.vDict []) = .vDict pytestT)
    (hini : dictGetD pytestT "ini_options" (.vDict []) = .vDict ini)
    (hiniKeys : ∀ p ∈ REQUIRED_PYTEST_SETTINGS, pyEq (dictGetD ini p.1 .vNone) p.2 = true)
    (hproj : dictGetD config "project" (.vDict []) = .vDict project)
    (hlic : pyEq (dictGetD project "license" .vNone) (.vStr "Apache-2.0") = true)
    (hrp : ∃ s, dictGetD project "requires-python" (.vStr "") = .vStr s ∧
      strStartsWith s ">=3.11" = true) :
    validate_pyproject fp (.parsed config) = some ([], []) := by
  have h1 : check_ruff_config config = some [] := by
    rw [check_ruff_shape config tool ruff lint fmtT (.vList sel) (.vList ign) sel ign
      htool hruff hlint hselv (by simp [pySet, hselh]) hignv (by simp [pySet, hignh]) hfmt]
    rw [tableErrs_eq_nil _ _ _ hruffKeys, tableErrs_eq_nil _ _ _ hfmtKeys]
    simp [hseleq, higneq]
  have h2 : check_mypy_config config = some [] := by
    rw [check_mypy_shape config tool mypyT htool hmypy, tableErrs_eq_nil _ _ _ hmypyKeys]
  have h3 : check_pytest_config config = some [] := by
    rw [check_pytest_shape config tool pytestT ini htool hpytest hini,
      tableErrs_eq_nil _ _ _ hiniKeys]
  have h4 := check_project_metadata_clean config project hproj hlic hrp
  simp [validate_pyproject, h1, h2, h3, h4]

theorem c2_witness :
    validate_pyproject "pyproject.toml" (.parsed canonicalConfig) = some ([], []) :=
  c2_conformant_document_validates_clean "pyproject.toml" canonicalConfig
    canonicalToolDict canonicalRuffDict canonicalLintDict CANONICAL_RUFF_FORMAT
    CANONICAL_MYPY canonicalPytestDict REQUIRED_PYTEST_SETTINGS canonicalProjectDict
    canonSelectVals canonIgnoreVals
    rfl rfl (by decide) rfl rfl (by decide) (by decide) rfl (by decide) (by decide)
    rfl (by decide) rfl (by decide) rfl rfl (by decide) rfl (by decide)
    ⟨">=3.11", rfl, by decide⟩

/-! ## C1 -/

theorem checkOneFile_valid_iff (fs : FS) (strict : Bool) (fp : String)
    (ms : List Msg) (ok : Bool) (h : checkOneFile fs strict fp = some (ms, ok)) :
    ok = false ↔ fileBad fs strict fp := by
  unfold checkOneFile at h
  by_cases h1 : pathName fp = "pyproject.toml"
  · rw [if_neg (by simp [h1])] at h
    by_cases h2 : fs.fexists fp = false
    · rw [if_pos h2] at h
      simp only [Option.some.injEq, Prod.mk.injEq] at h
      obtain ⟨-, hok⟩ := h
      subst hok
      simp only [eq_self_iff_true, true_iff]
      exact ⟨h1, Or.inl h2⟩
    · rw [if_neg h2] at h
      rcases hv : validate_pyproject fp (fs.load fp) with _ | ⟨e, w⟩
      · rw [hv] at h; exact absurd h (by simp)
      · rw [hv] at h
        dsimp only at h
        by_cases he : e ≠ []
        · rw [if_pos he] at h
          simp only [Option.some.injEq, Prod.mk.injEq] at h
          obtain ⟨-, hok⟩ := h
          subst hok
          simp only [eq_self_iff_true, true_iff]
          exact ⟨h1, Or.inr ⟨e, w, hv, Or.inl he⟩⟩
        · rw [if_neg he] at h
          push_neg at he
          by_cases hw : w ≠ [] ∧ strict = true
          · rw [if_pos hw] at h
            simp only [Option.some.injEq, Prod.mk.injEq] at h
            obtain ⟨-, hok⟩ := h
            subst hok
            simp only [eq_self_iff_true, true_iff]
            exact ⟨h1, Or.inr ⟨e, w, hv, Or.inr hw⟩⟩
          · rw [if_neg hw] at h
            simp only [Option.some.injEq, Prod.mk.injEq] at h
            obtain ⟨-, hok⟩ := h
            subst hok
            simp only [Bool.true_eq_false, false_iff]
            rintro ⟨-, hbad | ⟨e2, w2, hv2, hcond⟩⟩
            · exact h2 hbad
            · rw [hv] at hv2
              obtain ⟨he2, hw2⟩ := Prod.mk.injEq .. ▸ Option.some.inj hv2
              subst he2; subst hw2
              rcases hcond with hcond | hcond
              · exact hcond he
              · exact hw hcond
  · rw [if_pos h1] at h
    simp only [Option.some.injEq, Prod.mk.injEq] at h
    obtain ⟨-, hok⟩ := h
    subst hok
    simp only [Bool.true_eq_false, false_iff]
    rintro ⟨hname, -⟩
    exact h1 hname

theorem runFiles_valid_iff (fs : FS) (strict : Bool) :
    ∀ files (ms : List Msg) (ok : Bool), runFiles fs strict files = some (ms, ok) →
      (ok = false ↔ ∃ fp ∈ files, fileBad fs strict fp) := by
  intro files
  induction files with
  | nil =>
    intro ms ok h
    simp only [runFiles, Option.some.injEq, Prod.mk.injEq] at h
    obtain ⟨-, hok⟩ := h
    subst hok
    simp
  | cons fp rest ih =>
    intro ms ok h
    rcases h1 : checkOneFile fs strict fp with _ | ⟨ms1, ok1⟩
    · rw [runFiles, h1] at h; exact absurd h (by simp)
    · rcases h2 : runFiles fs strict rest with _ | ⟨ms2, ok2⟩
      · rw [runFiles, h1, h2] at h; exact absurd h (by simp)
      · rw [runFiles, h1, h2] at h
        simp only [Option.bind_eq_bind, Option.some_bind, Option.some.injEq,
          Prod.mk.injEq, Option.pure_def] at h
        obtain ⟨-, hok⟩ := h
        subst hok
        have hiff1 := checkOneFile_valid_iff fs strict fp ms1 ok1 h1
        have hiff2 := ih ms2 ok2 h2
        constructor
        · intro hf
          cases hok1 : ok1 with
          | false => exact ⟨fp, List.mem_cons_self _ _, hiff1.mp hok1⟩
          | true =>
            have hok2 : ok2 = false := by
              subst hok1; simpa using hf
            obtain ⟨q, hq, hb⟩ := hiff2.mp hok2
            exact ⟨q, List.mem_cons_of_mem _ hq, hb⟩
        · rintro ⟨q, hq, hb⟩
          rcases List.mem_cons.mp hq with rfl | hq2
          · have hok1 : ok1 = false := hiff1.mpr hb
            simp [hok1]
          · have hok2 : ok2 = false := hiff2.mpr ⟨q, hq2, hb⟩
            simp [hok2]

/-- C1: for every run of the config-check command that completes without an
escaped exception, the exit code is non-zero iff at least one checked file
produced errors, or produced warnings under `strict`, or an eligible path did
not exist, or no files were given and the default `pyproject.toml` does not
exist in the current directory. -/
theorem c1_exit_code_iff (fs : FS) (files : List String) (strict : Bool)
    (r : CmdResult) (h : config_check_command fs files strict = some r) :
    r.exitCode ≠ 0 ↔
      ((files = [] ∧ fs.fexists (defaultPath fs) = false) ∨
        ∃ fp ∈ (if files = [] then [defaultPath fs] else files),
          fileBad fs strict fp) := by
  unfold config_check_command at h
  by_cases hf : files = []
  · subst hf
    rw [if_neg (by simp)] at h
    rw [if_pos rfl]
    by_cases he : fs.fexists (defaultPath fs) = true
    · rw [if_pos he] at h
      rcases hr : runFiles fs strict [defaultPath fs] with _ | ⟨ms, ok⟩
      · rw [hr] at h; exact absurd h (by simp)
      · rw [hr] at h
        simp only [Option.map_some', Option.some.injEq] at h
        subst h
        have hiff := runFiles_valid_iff fs strict [defaultPath fs] ms ok hr
        have hne : ¬(([] : List String) = [] ∧ fs.fexists (defaultPath fs) = false) := by
          rintro ⟨-, hfalse⟩; rw [he] at hfalse; exact Bool.true_eq_false.mp hfalse
        cases ok with
        | false =>
          have hb : fileBad fs strict (defaultPath fs) := by simpa using hiff.mp rfl
          simp [hb]
        | true =>
          have hnb : ¬fileBad fs strict (defaultPath fs) := fun hb =>
            absurd (hiff.mpr (by simpa using hb)) (by decide)
          simp [hne, hnb, he]
    · rw [if_neg he] at h
      simp only [Option.some.injEq] at h
      subst h
      have he2 : fs.fexists (defaultPath fs) = false := by
        cases hx : fs.fexists (defaultPath fs)
        · rfl
        · exact absurd hx he
      simp [he2]
  · rw [if_pos hf] at h
    rw [if_neg hf]
    rcases hr : runFiles fs strict files with _ | ⟨ms, ok⟩
    · rw [hr] at h; exact absurd h (by simp)
    · rw [hr] at h
      simp only [Option.map_some', Option.some.injEq] at h
      subst h
      have hiff := runFiles_valid_iff fs strict files ms ok hr
      have hne : ¬(files = [] ∧ fs.fexists (defaultPath fs) = false) := fun hl => hf hl.1
      cases ok with
      | false =>
        have hex : ∃ fp ∈ files, fileBad fs strict fp := hiff.mp rfl
        simp [hex, hne]
      | true =>
        have hnex : ¬∃ fp ∈ files, fileBad fs strict fp := fun hx =>
          absurd (hiff.mpr hx) (by decide)
        simp [hne, hnex]

theorem c1_witness :
    (⟨[.error "No pyproject.toml found in current directory"], 1⟩ : CmdResult).exitCode ≠ 0 ↔
      ((([] : List String) = [] ∧ fsEmpty.fexists (defaultPath fsEmpty) = false) ∨
        ∃ fp ∈ (if ([] : List String) = [] then [defaultPath fsEmpty] else ([] : List String)),
          fileBad fsEmpty false fp) :=
  c1_exit_code_iff fsEmpty [] false _ rfl

/-! ## C6 -/

/-- C6 counterexample: on a file that validates with no errors but two
warnings, with `strict` off, the command prints the warnings AND the
`Configuration valid` success message in the same iteration — so the success
message is not confined to the branch with neither errors nor warnings. -/
theorem c6_counterexample_success_printed_with_warnings :
    validate_pyproject "pyproject.toml" (fsWarn.load "pyproject.toml") =
      some ([], ["[project] license should be \x27Apache-2.0\x27, got None",
                 "[project] requires-python should be \x27>=3.11\x27, got \x27\x27"]) ∧
    checkOneFile fsWarn false "pyproject.toml" =
      some ([.info "\nChecking pyproject.toml...",
             .warning "\n2 warning(s):",
             .warning "  - [project] license should be \x27Apache-2.0\x27, got None",
             .warning "  - [project] requires-python should be \x27>=3.11\x27, got \x27\x27",
             .success "Configuration valid"], true) :=
  ⟨rfl, rfl⟩

/-- C6 amended: for every validated file — if validation produced errors, all
errors are printed, the file is marked failed, and no warning and no success
line is printed; if it produced only warnings and `strict` is on, the warnings
are printed, the file is marked failed and no success line is printed; if it
produced only warnings and `strict` is off, the warnings are printed, the file
is NOT marked failed, and the success message is additionally printed after
them; with neither errors nor warnings only the success message is printed. -/
theorem c6_amended_per_file_reporting (fs : FS) (strict : Bool) (fp : String)
    (e w : List String)
    (helig : pathName fp = "pyproject.toml")
    (hex : fs.fexists fp = true)
    (hval : validate_pyproject fp (fs.load fp) = some (e, w)) :
    ∃ msgs ok, checkOneFile fs strict fp = some (msgs, ok) ∧
      ((e ≠ [] →
        ok = false ∧ (∀ x ∈ e, Msg.error ("  - " ++ x) ∈ msgs) ∧
        (∀ s, Msg.warning s ∉ msgs) ∧ (∀ s, Msg.success s ∉ msgs)) ∧
      (e = [] → w ≠ [] → strict = true →
        ok = false ∧ (∀ x ∈ w, Msg.warning ("  - " ++ x) ∈ msgs) ∧
        (∀ s, Msg.success s ∉ msgs)) ∧
      (e = [] → w ≠ [] → strict = false →
        ok = true ∧ (∀ x ∈ w, Msg.warning ("  - " ++ x) ∈ msgs) ∧
        Msg.success "Configuration valid" ∈ msgs) ∧
      (e = [] → w = [] →
        ok = true ∧
        msgs = [.info ("\nChecking " ++ fp ++ "..."), .success "Configuration valid"])) := by
  unfold checkOneFile
  rw [if_neg (by simp [helig]), if_neg (by simp [hex]), hval]
  dsimp only
  by_cases he : e ≠ []
  · rw [if_pos he]
    refine ⟨_, _, rfl, ?_, ?_, ?_, ?_⟩
    · intro _
      refine ⟨rfl, ?_, ?_, ?_⟩
      · intro x hx
        simp only [List.mem_cons, List.mem_map, List.mem_append]
        exact Or.inr (Or.inr ⟨x, hx, rfl⟩)
      · intro s hs
        simp only [List.mem_cons, List.mem_map, List.mem_append] at hs
        rcases hs with hs | hs | ⟨x, -, hs⟩ <;> simp_all
      · intro s hs
        simp only [List.mem_cons, List.mem_map, List.mem_append] at hs
        rcases hs with hs | hs | ⟨x, -, hs⟩ <;> simp_all
    · exact fun h0 => absurd h0 he
    · exact fun h0 => absurd h0 he
    · exact fun h0 => absurd h0 he
  · rw [if_neg he]
    push_neg at he
    by_cases hw : w ≠ [] ∧ strict = true
    · rw [if_pos hw]
      refine ⟨_, _, rfl, ?_, ?_, ?_, ?_⟩
      · exact fun h0 => absurd he h0
      · intro _ _ _
        refine ⟨rfl, ?_, ?_⟩
        · intro x hx
          simp only [List.mem_cons, List.mem_map, List.mem_append,
            if_pos hw.1]
          exact Or.inr (Or.inr ⟨x, hx, rfl⟩)
        · intro s hs
          simp only [List.mem_cons, List.mem_map, List.mem_append,
            if_pos hw.1] at hs
          rcases hs with hs | hs | ⟨x, -, hs⟩ <;> simp_all
      · intro _ _ hstrict
        exact absurd hw.2 (by simp [hstrict])
      · intro _ h0
        exact absurd h0 hw.1
    · rw [if_neg hw]
      refine ⟨_, _, rfl, ?_, ?_, ?_, ?_⟩
      · exact fun h0 => absurd he h0
      · intro _ hw2 hstrict
        exact absurd ⟨hw2, hstrict⟩ hw
      · intro _ hw2 hstrict
        refine ⟨rfl, ?_, ?_⟩
        · intro x hx
          refine List.mem_append_left _ (List.mem_append_right _ ?_)
          rw [if_pos hw2]
          exact List.mem_cons_of_mem _ (List.mem_map.mpr ⟨x, hx, rfl⟩)
        · have hcond : e = [] ∧ (w = [] ∨ strict = false) := ⟨he, Or.inr hstrict⟩
          refine List.mem_append_right _ ?_
          rw [if_pos hcond]
          exact List.mem_cons_self _ _
      · intro _ hw2
        refine ⟨rfl, ?_⟩
        have hcond : e = [] ∧ (w = [] ∨ strict = false) := ⟨he, Or.inl hw2⟩
        rw [if_neg (by simp [hw2]), if_pos hcond]
        simp

theorem c6_witness :
    ∃ msgs ok,
      checkOneFile fsParseErr false "pyproject.toml" = some (msgs, ok) ∧
      ((["Failed to parse pyproject.toml: boom"] ≠ ([] : List String) →
        ok = false ∧
        (∀ x ∈ ["Failed to parse pyproject.toml: boom"],
          Msg.error ("  - " ++ x) ∈ msgs) ∧
        (∀ s, Msg.warning s ∉ msgs) ∧ (∀ s, Msg.success s ∉ msgs)) ∧
      (["Failed to parse pyproject.toml: boom"] = [] → ([] : List String) ≠ [] →
        false = true →
        ok = false ∧
        (∀ x ∈ ([] : List String), Msg.warning ("  - " ++ x) ∈ msgs) ∧
        (∀ s, Msg.success s ∉ msgs)) ∧
      (["Failed to parse pyproject.toml: boom"] = [] → ([] : List String) ≠ [] →
        false = false →
        ok = true ∧
        (∀ x ∈ ([] : List String), Msg.warning ("  - " ++ x) ∈ msgs) ∧
        Msg.success "Configuration valid" ∈ msgs) ∧
      (["Failed to parse pyproject.toml: boom"] = [] → ([] : List String) = [] →
        ok = true ∧
        msgs = [.info ("\nChecking " ++ "pyproject.toml" ++ "..."),
                .success "Configuration valid"])) :=
  c6_amended_per_file_reporting fsParseErr false "pyproject.toml"
    ["Failed to parse pyproject.toml: boom"] [] (by decide) rfl rfl

/-! ## C7 -/

theorem splitChar_ne_nil (sep : Char) (l : List Char) : splitChar sep l ≠ [] := by
  cases l with
  | nil => simp [splitChar]
  | cons c rest =>
    simp only [splitChar]
    rcases h : splitChar sep rest with _ | ⟨x, xs⟩
    · simp
    · by_cases hc : c = sep <;> simp [hc]

theorem splitChar_append_of_not_mem (sep : Char) :
    ∀ (a b : List Char), sep ∉ a →
      splitChar sep (a ++ sep :: b) = a :: splitChar sep b := by
  intro a
  induction a with
  | nil =>
    intro b _
    obtain ⟨l0, ls0, hb⟩ := List.exists_cons_of_ne_nil (splitChar_ne_nil sep b)
    simp [splitChar, hb]
  | cons c a2 ih =>
    intro b h
    have hc : c ≠ sep := fun hx => h (hx ▸ List.mem_cons_self _ _)
    have ha : sep ∉ a2 := fun hx => h (List.mem_cons_of_mem _ hx)
    show splitChar sep (c :: (a2 ++ sep :: b)) = (c :: a2) :: splitChar sep b
    simp only [splitChar]
    rw [ih b ha]
    simp [hc]

/-- C7: `GitignoreAssembler.build ["A", "B"]` with a resolver giving content
for `A` and nothing for `B` yields `missing = ["B"]`, an output whose only
section header line is `# === A ===`, and — provided `A`'s content itself
contains no `B` — an output in which the unresolved name `B` does not occur
at all (no header, no content, no placeholder). -/
theorem c7_unresolved_template_excluded (cA : String)
    (h1 : (charLines cA.data).all (fun l => !isHeaderLine l) = true)
    (h2 : (Char.ofNat 66) ∉ cA.data) :
    (GitignoreAssembler.build ["A", "B"] fun n => if n = "A" then some cA else none).2
        = ["B"] ∧
    headerLines
        (GitignoreAssembler.build ["A", "B"] fun n => if n = "A" then some cA else none).1
      = ["# === A ===".data] ∧
    (Char.ofNat 66) ∉
      ((GitignoreAssembler.build ["A", "B"] fun n => if n = "A" then some cA else none).1).data := by
  have hbuild : (GitignoreAssembler.build ["A", "B"]
      fun n => if n = "A" then some cA else none) = ("# === A ===\n" ++ cA, ["B"]) := rfl
  refine ⟨by rw [hbuild], ?_, ?_⟩
  · rw [hbuild]
    have hdoc : (("# === A ===\n" ++ cA) : String).data
        = "# === A ===".data ++ '\n' :: cA.data := rfl
    have hrest : (splitChar '\n' cA.data).filter isHeaderLine = [] := by
      rw [List.filter_eq_nil_iff]
      intro l hl
      have hall := List.all_eq_true.mp h1 l hl
      simp only [Bool.not_eq_true'] at hall
      simp [hall]
    unfold headerLines charLines
    rw [hdoc, splitChar_append_of_not_mem '\n' "# === A ===".data cA.data (by decide)]
    rw [List.filter_cons]
    rw [if_pos (by decide : isHeaderLine "# === A ===".data = true)]
    rw [hrest]
  · rw [hbuild]
    intro hmem
    rw [String.data_append] at hmem
    rcases List.mem_append.mp hmem with hx | hx
    · exact absurd hx (by decide)
    · exact h2 hx

theorem c7_witness :
    (GitignoreAssembler.build ["A", "B"]
        fun n => if n = "A" then some "*.pyc\n__pycache__/" else none).2 = ["B"] ∧
    headerLines
        (GitignoreAssembler.build ["A", "B"]
          fun n => if n = "A" then some "*.pyc\n__pycache__/" else none).1
      = ["# === A ===".data] ∧
    (Char.ofNat 66) ∉
      ((GitignoreAssembler.build ["A", "B"]
        fun n => if n = "A" then some "*.pyc\n__pycache__/" else none).1).data :=
  c7_unresolved_template_excluded "*.pyc\n__pycache__/" (by decide) (by decide)

/-! ## C4 infrastructure: set semantics and document substitution -/

theorem pyMem_iff (x : PyVal) : ∀ l : List PyVal, pyMem x l = true ↔ ∃ y ∈ l, pyEq x y = true := by
  intro l
  induction l with
  | nil => simp [pyMem]
  | cons y ys ih =>
    simp only [pyMem, Bool.or_eq_true, ih, List.mem_cons]
    constructor
    · rintro (h | ⟨z, hz, hzeq⟩)
      · exact ⟨y, Or.inl rfl, h⟩
      · exact ⟨z, Or.inr hz, hzeq⟩
    · rintro ⟨z, rfl | hz, hzeq⟩
      · exact Or.inl hzeq
      · exact Or.inr ⟨z, hz, hzeq⟩

theorem all_congr_list {α : Type} (f g : α → Bool) :
    ∀ l : List α, (∀ x ∈ l, f x = g x) → l.all f = l.all g := by
  intro l
  induction l with
  | nil => intro _; rfl
  | cons y ys ih =>
    intro h
    simp only [List.all_cons, h y (List.mem_cons_self _ _),
      ih fun x hx => h x (List.mem_cons_of_mem _ hx)]

theorem all_eq_of_perm {α : Type} (f : α → Bool) {a a2 : List α} (h : a.Perm a2) :
    a.all f = a2.all f := by
  cases h1 : a.all f <;> cases h2 : a2.all f <;> try rfl
  · rw [List.all_eq_false] at h1
    obtain ⟨x, hx, hfx⟩ := h1
    have := List.all_eq_true.mp h2 x (h.mem_iff.mp hx)
    simp [this] at hfx
  · rw [List.all_eq_false] at h2
    obtain ⟨x, hx, hfx⟩ := h2
    have := List.all_eq_true.mp h1 x (h.mem_iff.mpr hx)
    simp [this] at hfx

theorem pyMem_eq_of_perm (x : PyVal) {a a2 : List PyVal} (h : a.Perm a2) :
    pyMem x a = pyMem x a2 := by
  cases h1 : pyMem x a <;> cases h2 : pyMem x a2 <;> try rfl
  · obtain ⟨y, hy, hyeq⟩ := (pyMem_iff x a2).mp h2
    have := (pyMem_iff x a).mpr ⟨y, h.mem_iff.mpr hy, hyeq⟩
    rw [h1] at this; exact this
  · obtain ⟨y, hy, hyeq⟩ := (pyMem_iff x a).mp h1
    have := (pyMem_iff x a2).mpr ⟨y, h.mem_iff.mp hy, hyeq⟩
    rw [h2] at this; exact this.symm

theorem setEq_perm_left {a a2 : List PyVal} (h : a.Perm a2) (b : List PyVal) :
    setEq a b = setEq a2 b := by
  unfold setEq pySubset
  rw [all_eq_of_perm _ h, all_congr_list _ _ b fun x _ => pyMem_eq_of_perm x h]

theorem pySubset_false_of_not_mem {x : PyVal} {a b : List PyVal}
    (hxa : x ∈ a) (hxb : pyMem x b = false) : pySubset a b = false := by
  cases hall : pySubset a b
  · rfl
  · have := List.all_eq_true.mp hall x hxa
    rw [hxb] at this
    exact absurd this (by decide)

theorem setEq_false_left {a b : List PyVal} (h : pySubset a b = false) :
    setEq a b = false := by
  unfold setEq
  rw [h, Bool.false_and]

theorem setEq_false_right {a b : List PyVal} (h : pySubset b a = false) :
    setEq a b = false := by
  unfold setEq
  rw [h, Bool.and_false]

theorem pyEq_vStr_comm (s : String) (y : PyVal) : pyEq (.vStr s) y = pyEq y (.vStr s) := by
  cases y <;> try rfl
  case vStr t =>
    show (s == t) = (t == s)
    cases h1 : s == t <;> cases h2 : t == s <;> try rfl
    · exact absurd (beq_iff_eq.mpr (beq_iff_eq.mp h2).symm) (by simp [h1])
    · exact absurd (beq_iff_eq.mpr (beq_iff_eq.mp h1).symm) (by simp [h2])

theorem pyMem_filter_pyEq_self (s : String) :
    ∀ l : List PyVal, pyMem (.vStr s) (l.filter fun y => !pyEq y (.vStr s)) = false := by
  intro l
  induction l with
  | nil => rfl
  | cons y ys ih =>
    rw [List.filter_cons]
    by_cases hy : pyEq y (.vStr s) = true
    · simp only [hy, Bool.not_true, Bool.false_eq_true, if_false]
      exact ih
    · have hy2 : pyEq y (.vStr s) = false := by
        cases h : pyEq y (.vStr s)
        · rfl
        · exact absurd h hy
      simp only [hy2, Bool.not_false, if_pos]
      show (pyEq (.vStr s) y || pyMem (.vStr s) (ys.filter fun y => !pyEq y (.vStr s))) = false
      rw [pyEq_vStr_comm, hy2, ih, Bool.false_or]

theorem all_filter_of_all (q p : PyVal → Bool) {l : List PyVal} (h : l.all q = true) :
    (l.filter p).all q = true := by
  rw [List.all_eq_true] at h ⊢
  intro x hx
  exact h x (List.mem_of_mem_filter hx)

theorem lookupStr_dictSet_self {d : List (String × PyVal)} {k : String} {v0 : PyVal}
    (h : lookupStr d k = some v0) (v : PyVal) : lookupStr (dictSet d k v) k = some v := by
  induction d with
  | nil => exact absurd h (by simp [lookupStr])
  | cons p rest ih =>
    obtain ⟨k1, v1⟩ := p
    by_cases hk : k1 = k
    · subst hk
      show lookupStr ((if (k1, v1).1 = k1 then (k1, v) else (k1, v1)) :: dictSet rest k1 v) k1
          = some v
      rw [if_pos (show (k1, v1).1 = k1 from rfl)]
      simp [lookupStr]
    · rw [lookupStr, if_neg hk] at h
      simp only [dictSet, List.map_cons, if_neg hk]
      rw [lookupStr, if_neg hk]
      exact ih h

theorem lookupStr_dictSet_ne (d : List (String × PyVal)) (k k2 : String) (v : PyVal)
    (h : k2 ≠ k) : lookupStr (dictSet d k v) k2 = lookupStr d k2 := by
  induction d with
  | nil => rfl
  | cons p rest ih =>
    obtain ⟨k1, v1⟩ := p
    by_cases hk : k1 = k
    · subst hk
      simp only [dictSet, List.map_cons, if_pos rfl]
      rw [lookupStr, lookupStr, if_neg (fun hx => h hx.symm), if_neg (fun hx => h hx.symm)]
      exact ih
    · simp only [dictSet, List.map_cons, if_neg hk]
      rw [lookupStr, lookupStr]
      by_cases hk2 : k1 = k2
      · simp [hk2]
      · rw [if_neg hk2, if_neg hk2]
        exact ih

theorem dictGetD_of_lookup {d : List (String × PyVal)} {k : String} {v : PyVal}
    (dflt : PyVal) (h : lookupStr d k = some v) : dictGetD d k dflt = v := by
  unfold dictGetD
  rw [h]

theorem dictGetD_dictSet_ne (d : List (String × PyVal)) (k k2 : String) (v dflt : PyVal)
    (h : k2 ≠ k) : dictGetD (dictSet d k v) k2 dflt = dictGetD d k2 dflt := by
  unfold dictGetD
  rw [lookupStr_dictSet_ne d k k2 v h]

theorem tableErrs_congr (hdr : String) (d1 d2 : List (String × PyVal)) :
    ∀ canon, (∀ p ∈ canon, dictGetD d1 p.1 .vNone = dictGetD d2 p.1 .vNone) →
      tableErrs hdr d1 canon = tableErrs hdr d2 canon := by
  intro canon
  induction canon with
  | nil => intro _; rfl
  | cons p rest ih =>
    intro h
    obtain ⟨k, exp⟩ := p
    have hk := h (k, exp) (List.mem_cons_self _ _)
    simp only [tableErrs, hk, ih fun q hq => h q (List.mem_cons_of_mem _ hq)]

/-! ## C4 -/

theorem check_ruff_subst_shape
    (config tool ruff lint fmtT : List (String × PyVal)) (sel2 ign2 : List PyVal)
    (htool : lookupStr config "tool" = some (.vDict tool))
    (hruff : lookupStr tool "ruff" = some (.vDict ruff))
    (hlint : lookupStr ruff "lint" = some (.vDict lint))
    (hsel : ∃ v, lookupStr lint "select" = some v)
    (hign : ∃ v, lookupStr lint "ignore" = some v)
    (hfmt : dictGetD ruff "format" (.vDict []) = .vDict fmtT)
    (h2 : sel2.all pyHashable = true) (h3 : ign2.all pyHashable = true) :
    check_ruff_config (substSelIgn config tool ruff lint sel2 ign2) = some
      (tableErrs "[tool.ruff]" ruff CANONICAL_RUFF
        ++ (if setEq sel2 canonSelectVals then [] else [selectMsg (.vList sel2)])
        ++ (if setEq ign2 canonIgnoreVals then [] else [ignoreMsg (.vList ign2)])
        ++ tableErrs "[tool.ruff.format]" fmtT CANONICAL_RUFF_FORMAT) := by
  obtain ⟨sv, hsv⟩ := hsel
  obtain ⟨iv, hiv⟩ := hign
  have e1 : dictGetD (substSelIgn config tool ruff lint sel2 ign2) "tool" (.vDict [])
      = .vDict (dictSet tool "ruff" (.vDict (dictSet ruff "lint" (.vDict
          (dictSet (dictSet lint "select" (.vList sel2)) "ignore" (.vList ign2)))))) :=
    dictGetD_of_lookup _ (lookupStr_dictSet_self htool _)
  have e2 : dictGetD (dictSet tool "ruff" (.vDict (dictSet ruff "lint" (.vDict
        (dictSet (dictSet lint "select" (.vList sel2)) "ignore" (.vList ign2))))))
      "ruff" (.vDict [])
      = .vDict (dictSet ruff "lint" (.vDict
          (dictSet (dictSet lint "select" (.vList sel2)) "ignore" (.vList ign2)))) :=
    dictGetD_of_lookup _ (lookupStr_dictSet_self hruff _)
  have e3 : dictGetD (dictSet ruff "lint" (.vDict
        (dictSet (dictSet lint "select" (.vList sel2)) "ignore" (.vList ign2))))
      "lint" (.vDict [])
      = .vDict (dictSet (dictSet lint "select" (.vList sel2)) "ignore" (.vList ign2)) :=
    dictGetD_of_lookup _ (lookupStr_dictSet_self hlint _)
  have e4 : dictGetD (dictSet (dictSet lint "select" (.vList sel2)) "ignore" (.vList ign2))
      "select" (.vList []) = .vList sel2 := by
    apply dictGetD_of_lookup
    rw [lookupStr_dictSet_ne _ "ignore" "select" _ (by decide)]
    exact lookupStr_dictSet_self hsv _
  have e5 : dictGetD (dictSet (dictSet lint "select" (.vList sel2)) "ignore" (.vList ign2))
      "ignore" (.vList []) = .vList ign2 := by
    apply dictGetD_of_lookup
    have hx : lookupStr (dictSet lint "select" (.vList sel2)) "ignore" = some iv := by
      rw [lookupStr_dictSet_ne _ "select" "ignore" _ (by decide)]
      exact hiv
    exact lookupStr_dictSet_self hx _
  have e6 : dictGetD (dictSet ruff "lint" (.vDict
        (dictSet (dictSet lint "select" (.vList sel2)) "ignore" (.vList ign2))))
      "format" (.vDict []) = .vDict fmtT := by
    rw [dictGetD_dictSet_ne ruff "lint" "format" _ _ (by decide)]
    exact hfmt
  have hps : pySet (.vList sel2) = some sel2 := by simp [pySet, h2]
  have hpi : pySet (.vList ign2) = some ign2 := by simp [pySet, h3]
  have hshape := check_ruff_shape (substSelIgn config tool ruff lint sel2 ign2)
    (dictSet tool "ruff" (.vDict (dictSet ruff "lint" (.vDict
      (dictSet (dictSet lint "select" (.vList sel2)) "ignore" (.vList ign2))))))
    (dictSet ruff "lint" (.vDict
      (dictSet (dictSet lint "select" (.vList sel2)) "ignore" (.vList ign2))))
    (dictSet (dictSet lint "select" (.vList sel2)) "ignore" (.vList ign2))
    fmtT (.vList sel2) (.vList ign2) sel2 ign2 e1 e2 e3 e4 hps e5 hpi e6
  have hne : ∀ p ∈ CANONICAL_RUFF, ¬(p.1 = "lint") := by decide
  have hc : tableErrs "[tool.ruff]"
      (dictSet ruff "lint" (.vDict
        (dictSet (dictSet lint "select" (.vList sel2)) "ignore" (.vList ign2))))
      CANONICAL_RUFF = tableErrs "[tool.ruff]" ruff CANONICAL_RUFF :=
    tableErrs_congr _ _ _ CANONICAL_RUFF fun p hp =>
      dictGetD_dictSet_ne ruff "lint" p.1 _ _ (hne p hp)
  rw [hshape, hc]

/-- C4 corrected: the rule-selection and rule-ignore checks are
order-insensitive in WHETHER they report an error, but not in the reported
text (the message embeds the actual list).  Replacing `select` (resp.
`ignore`) by a permutation leaves every other error unchanged and errs on the
set check iff the original did; adding an element outside the canonical set,
or removing all occurrences of a canonical element, makes that check err. -/
theorem c4_amended_set_checks_order_insensitive
    (config tool ruff lint fmtT : List (String × PyVal)) (sel ign : List PyVal)
    (htool : lookupStr config "tool" = some (.vDict tool))
    (hruff : lookupStr tool "ruff" = some (.vDict ruff))
    (hlint : lookupStr ruff "lint" = some (.vDict lint))
    (hsel : lookupStr lint "select" = some (.vList sel))
    (hign : lookupStr lint "ignore" = some (.vList ign))
    (hfmt : dictGetD ruff "format" (.vDict []) = .vDict fmtT)
    (hselh : sel.all pyHashable = true)
    (hignh : ign.all pyHashable = true) :
    (∀ sel2 ign2, sel.Perm sel2 → ign.Perm ign2 →
      ∃ pre s1 t1 s2 t2 post,
        check_ruff_config config = some (pre ++ s1 ++ t1 ++ post) ∧
        check_ruff_config (substSelIgn config tool ruff lint sel2 ign2)
          = some (pre ++ s2 ++ t2 ++ post) ∧
        (s1 = [] ↔ s2 = []) ∧ (t1 = [] ↔ t2 = []) ∧
        s1.length ≤ 1 ∧ s2.length ≤ 1 ∧ t1.length ≤ 1 ∧ t2.length ≤ 1) ∧
    (∀ x, pyHashable x = true →
      (pyMem x canonSelectVals = false →
        ∃ l, check_ruff_config (substSelIgn config tool ruff lint (x :: sel) ign)
            = some l ∧ selectMsg (.vList (x :: sel)) ∈ l) ∧
      (pyMem x canonIgnoreVals = false →
        ∃ l, check_ruff_config (substSelIgn config tool ruff lint sel (x :: ign))
            = some l ∧ ignoreMsg (.vList (x :: ign)) ∈ l)) ∧
    (∀ s : String,
      (PyVal.vStr s ∈ canonSelectVals →
        ∃ l, check_ruff_config (substSelIgn config tool ruff lint
              (sel.filter fun y => !pyEq y (.vStr s)) ign)
            = some l ∧ selectMsg (.vList (sel.filter fun y => !pyEq y (.vStr s))) ∈ l) ∧
      (PyVal.vStr s ∈ canonIgnoreVals →
        ∃ l, check_ruff_config (substSelIgn config tool ruff lint sel
              (ign.filter fun y => !pyEq y (.vStr s)))
            = some l ∧ ignoreMsg (.vList (ign.filter fun y => !pyEq y (.vStr s))) ∈ l)) := by
  have horig := check_ruff_shape config tool ruff lint fmtT (.vList sel) (.vList ign) sel ign
    (dictGetD_of_lookup _ htool) (dictGetD_of_lookup _ hruff) (dictGetD_of_lookup _ hlint)
    (dictGetD_of_lookup _ hsel) (by simp [pySet, hselh])
    (dictGetD_of_lookup _ hign) (by simp [pySet, hignh]) hfmt
  refine ⟨?_, ?_, ?_⟩
  · intro sel2 ign2 hps hpi
    have hsel2h : sel2.all pyHashable = true := by
      rw [← all_eq_of_perm pyHashable hps]; exact hselh
    have hign2h : ign2.all pyHashable = true := by
      rw [← all_eq_of_perm pyHashable hpi]; exact hignh
    have hshape2 := check_ruff_subst_shape config tool ruff lint fmtT sel2 ign2
      htool hruff hlint ⟨_, hsel⟩ ⟨_, hign⟩ hfmt hsel2h hign2h
    refine ⟨_, _, _, _, _, _, horig, hshape2, ?_, ?_, ?_, ?_, ?_, ?_⟩
    · rw [setEq_perm_left hps canonSelectVals]
      cases h : setEq sel2 canonSelectVals <;> simp [h]
    · rw [setEq_perm_left hpi canonIgnoreVals]
      cases h : setEq ign2 canonIgnoreVals <;> simp [h]
    · cases h : setEq sel canonSelectVals <;> simp [h]
    · cases h : setEq sel2 canonSelectVals <;> simp [h]
    · cases h : setEq ign canonIgnoreVals <;> simp [h]
    · cases h : setEq ign2 canonIgnoreVals <;> simp [h]
  · intro x hx
    constructor
    · intro hmemf
      have hall : (x :: sel).all pyHashable = true := by
        simp [List.all_cons, hx, hselh]
      have hshape := check_ruff_subst_shape config tool ruff lint fmtT (x :: sel) ign
        htool hruff hlint ⟨_, hsel⟩ ⟨_, hign⟩ hfmt hall hignh
      have hfalse : setEq (x :: sel) canonSelectVals = false :=
        setEq_false_left (pySubset_false_of_not_mem (List.mem_cons_self x sel) hmemf)
      rw [hfalse] at hshape
      simp only [Bool.false_eq_true, if_false] at hshape
      refine ⟨_, hshape, ?_⟩
      exact List.mem_append_left _ (List.mem_append_left _
        (List.mem_append_right _ (List.mem_singleton_self _)))
    · intro hmemf
      have hall : (x :: ign).all pyHashable = true := by
        simp [List.all_cons, hx, hignh]
      have hshape := check_ruff_subst_shape config tool ruff lint fmtT sel (x :: ign)
        htool hruff hlint ⟨_, hsel⟩ ⟨_, hign⟩ hfmt hselh hall
      have hfalse : setEq (x :: ign) canonIgnoreVals = false :=
        setEq_false_left (pySubset_false_of_not_mem (List.mem_cons_self x ign) hmemf)
      rw [hfalse] at hshape
      simp only [Bool.false_eq_true, if_false] at hshape
      refine ⟨_, hshape, ?_⟩
      exact List.mem_append_left _ (List.mem_append_right _ (List.mem_singleton_self _))
  · intro s
    constructor
    · intro hmem
      have hallf : (sel.filter fun y => !pyEq y (.vStr s)).all pyHashable = true :=
        all_filter_of_all _ _ hselh
      have hshape := check_ruff_subst_shape config tool ruff lint fmtT
        (sel.filter fun y => !pyEq y (.vStr s)) ign
        htool hruff hlint ⟨_, hsel⟩ ⟨_, hign⟩ hfmt hallf hignh
      have hfalse : setEq (sel.filter fun y => !pyEq y (.vStr s)) canonSelectVals = false :=
        setEq_false_right (pySubset_false_of_not_mem hmem (pyMem_filter_pyEq_self s sel))
      rw [hfalse] at hshape
      simp only [Bool.false_eq_true, if_false] at hshape
      refine ⟨_, hshape, ?_⟩
      exact List.mem_append_left _ (List.mem_append_left _
        (List.mem_append_right _ (List.mem_singleton_self _)))
    · intro hmem
      have hallf : (ign.filter fun y => !pyEq y (.vStr s)).all pyHashable = true :=
        all_filter_of_all _ _ hignh
      have hshape := check_ruff_subst_shape config tool ruff lint fmtT sel
        (ign.filter fun y => !pyEq y (.vStr s))
        htool hruff hlint ⟨_, hsel⟩ ⟨_, hign⟩ hfmt hselh hallf
      have hfalse : setEq (ign.filter fun y => !pyEq y (.vStr s)) canonIgnoreVals = false :=
        setEq_false_right (pySubset_false_of_not_mem hmem (pyMem_filter_pyEq_self s ign))
      rw [hfalse] at hshape
      simp only [Bool.false_eq_true, if_false] at hshape
      refine ⟨_, hshape, ?_⟩
      exact List.mem_append_left _ (List.mem_append_right _ (List.mem_singleton_self _))

/-- C4 counterexample: `["F", "E"]` is a permutation of `["E", "F"]`, yet the
two error lists differ, because the select-check message embeds the actual
list text (`got ['E', 'F']` versus `got ['F', 'E']`). -/
theorem c4_counterexample_message_embeds_order :
    ([PyVal.vStr "E", PyVal.vStr "F"]).Perm [PyVal.vStr "F", PyVal.vStr "E"] ∧
    check_ruff_config (cfgSel [.vStr "E", .vStr "F"]) ≠
      check_ruff_config (cfgSel [.vStr "F", .vStr "E"]) :=
  ⟨List.Perm.swap (PyVal.vStr "F") (PyVal.vStr "E") [], by decide⟩

theorem c4_witness :
    ∃ pre s1 t1 s2 t2 post,
      check_ruff_config
          [("tool", PyVal.vDict [("ruff", PyVal.vDict [("lint", PyVal.vDict
            [("select", PyVal.vList [.vStr "E", .vStr "F"]),
             ("ignore", PyVal.vList [.vStr "X"])])])])]
        = some (pre ++ s1 ++ t1 ++ post) ∧
      check_ruff_config (substSelIgn
          [("tool", PyVal.vDict [("ruff", PyVal.vDict [("lint", PyVal.vDict
            [("select", PyVal.vList [.vStr "E", .vStr "F"]),
             ("ignore", PyVal.vList [.vStr "X"])])])])]
          [("ruff", PyVal.vDict [("lint", PyVal.vDict
            [("select", PyVal.vList [.vStr "E", .vStr "F"]),
             ("ignore", PyVal.vList [.vStr "X"])])])]
          [("lint", PyVal.vDict
            [("select", PyVal.vList [.vStr "E", .vStr "F"]),
             ("ignore", PyVal.vList [.vStr "X"])])]
          [("select", PyVal.vList [.vStr "E", .vStr "F"]),
           ("ignore", PyVal.vList [.vStr "X"])]
          [.vStr "F", .vStr "E"] [.vStr "X"])
        = some (pre ++ s2 ++ t2 ++ post) ∧
      (s1 = [] ↔ s2 = []) ∧ (t1 = [] ↔ t2 = []) ∧
      s1.length ≤ 1 ∧ s2.length ≤ 1 ∧ t1.length ≤ 1 ∧ t2.length ≤ 1 :=
  (c4_amended_set_checks_order_insensitive
      [("tool", PyVal.vDict [("ruff", PyVal.vDict [("lint", PyVal.vDict
        [("select", PyVal.vList [.vStr "E", .vStr "F"]),
         ("ignore", PyVal.vList [.vStr "X"])])])])]
      [("ruff", PyVal.vDict [("lint", PyVal.vDict
        [("select", PyVal.vList [.vStr "E", .vStr "F"]),
         ("ignore", PyVal.vList [.vStr "X"])])])]
      [("lint", PyVal.vDict
        [("select", PyVal.vList [.vStr "E", .vStr "F"]),
         ("ignore", PyVal.vList [.vStr "X"])])]
      [("select", PyVal.vList [.vStr "E", .vStr "F"]),
       ("ignore", PyVal.vList [.vStr "X"])] []
      [.vStr "E", .vStr "F"] [.vStr "X"]
      rfl rfl rfl rfl rfl rfl (by decide) (by decide)).1
    [.vStr "F", .vStr "E"] [.vStr "X"]
    (List.Perm.swap (PyVal.vStr "F") (PyVal.vStr "E") []) (List.Perm.refl _)
